import Mathlib

/-!
Verification of the authenticated API-client subsystem of the
endfield-auto-check-in repository: request signing (src/utils/oauth.ts),
the retrying transport and error normalization (src/repositories/SkportApiClient.ts),
the OAuth credential bootstrap (src/utils/oauth.ts), and the per-account
orchestration pipeline (src/services/CheckInService.ts).

Machine words are modelled as Nat reduced mod 2^32 where the JS code relies
on 32-bit crypto arithmetic; hashes operate on UTF-8 byte lists.
-/

/-! Byte and word helpers. -/

/-- Reduce a natural number to a 32-bit word, mirroring 32-bit overflow. -/
def u32 (x : Nat) : Nat := x % 4294967296

/-- Bitwise complement on 32-bit words (x assumed < 2^32). -/
def not32 (x : Nat) : Nat := 4294967295 - x

/-- Rotate a 32-bit word left by s bits (0 < s < 32, x < 2^32). -/
def rotl32 (x s : Nat) : Nat := u32 (x <<< s) ||| (x >>> (32 - s))

/-- Rotate a 32-bit word right by s bits (0 < s < 32, x < 2^32). -/
def rotr32 (x s : Nat) : Nat := (x >>> s) ||| u32 (x <<< (32 - s))

/-- Hexadecimal digit character for a value below 16 (lowercase, as
Node's digest("hex")). -/
def hexChar (n : Nat) : Char :=
  if n < 10 then Char.ofNat (48 + n) else Char.ofNat (87 + n)

/-- Lowercase hex encoding of a byte list, two digits per byte. -/
def bytesToHex (bs : List Nat) : String :=
  String.mk (bs.flatMap (fun b => [hexChar ((b / 16) % 16), hexChar (b % 16)]))

/-- UTF-8 encoding of a single code point as bytes. -/
def utf8Bytes (c : Nat) : List Nat :=
  if c < 128 then [c]
  else if c < 2048 then
    [192 ||| (c >>> 6), 128 ||| (c &&& 63)]
  else if c < 65536 then
    [224 ||| (c >>> 12), 128 ||| ((c >>> 6) &&& 63), 128 ||| (c &&& 63)]
  else
    [240 ||| (c >>> 18), 128 ||| ((c >>> 12) &&& 63),
     128 ||| ((c >>> 6) &&& 63), 128 ||| (c &&& 63)]

/-- UTF-8 bytes of a string, as crypto.update(string) consumes it in Node. -/
def strBytes (s : String) : List Nat :=
  s.data.flatMap (fun ch => utf8Bytes ch.toNat)

/-- Fuel-driven splitter for 64-byte blocks; fuel bounds the number of
blocks and keeps the recursion structural so the kernel can evaluate it. -/
def chunks64Go : Nat → List Nat → List (List Nat)
  | 0, _ => []
  | _, [] => []
  | fuel + 1, bs => bs.take 64 :: chunks64Go fuel (bs.drop 64)

/-- Split a byte list into 64-byte blocks. -/
def chunks64 (bs : List Nat) : List (List Nat) := chunks64Go bs.length bs

/-- Four bytes of a 32-bit word, little-endian (MD5 convention). -/
def wordLEBytes (w : Nat) : List Nat :=
  [w % 256, (w >>> 8) % 256, (w >>> 16) % 256, (w >>> 24) % 256]

/-- Four bytes of a 32-bit word, big-endian (SHA-256 convention). -/
def wordBEBytes (w : Nat) : List Nat :=
  [(w >>> 24) % 256, (w >>> 16) % 256, (w >>> 8) % 256, w % 256]

/-! MD5 (RFC 1321), the repository's 128-bit digest used by both signing
schemes via crypto.createHash("md5"). -/

/-- MD5 sine-derived round constants K[0..63]. -/
def md5K : List Nat :=
  [3614090360, 3905402710, 606105819, 3250441966, 4118548399, 1200080426,
   2821735955, 4249261313, 1770035416, 2336552879, 4294925233, 2304563134,
   1804603682, 4254626195, 2792965006, 1236535329, 4129170786, 3225465664,
   643717713, 3921069994, 3593408605, 38016083, 3634488961, 3889429448,
   568446438, 3275163606, 4107603335, 1163531501, 2850285829, 4243563512,
   1735328473, 2368359562, 4294588738, 2272392833, 1839030562, 4259657740,
   2763975236, 1272893353, 4139469664, 3200236656, 681279174, 3936430074,
   3572445317, 76029189, 3654602809, 3873151461, 530742520, 3299628645,
   4096336452, 1126891415, 2878612391, 4237533241, 1700485571, 2399980690,
   4293915773, 2240044497, 1873313359, 4264355552, 2734768916, 1309151649,
   4149444226, 3174756917, 718787259, 3951481745]

/-- MD5 per-round left-rotation amounts s[0..63]. -/
def md5S : List Nat :=
  [7, 12, 17, 22, 7, 12, 17, 22, 7, 12, 17, 22, 7, 12, 17, 22,
   5, 9, 14, 20, 5, 9, 14, 20, 5, 9, 14, 20, 5, 9, 14, 20,
   4, 11, 16, 23, 4, 11, 16, 23, 4, 11, 16, 23, 4, 11, 16, 23,
   6, 10, 15, 21, 6, 10, 15, 21, 6, 10, 15, 21, 6, 10, 15, 21]

/-- MD5 nonlinear round function for operation i on words b, c, d. -/
def md5F (i b c d : Nat) : Nat :=
  if i < 16 then (b &&& c) ||| (not32 b &&& d)
  else if i < 32 then (d &&& b) ||| (not32 d &&& c)
  else if i < 48 then b ^^^ c ^^^ d
  else c ^^^ (b ||| not32 d)

/-- MD5 message-word index for operation i. -/
def md5G (i : Nat) : Nat :=
  if i < 16 then i
  else if i < 32 then (5 * i + 1) % 16
  else if i < 48 then (3 * i + 5) % 16
  else (7 * i) % 16

/-- MD5 chaining state of four 32-bit words. -/
structure MD5State where
  a : Nat
  b : Nat
  c : Nat
  d : Nat

/-- Sixteen little-endian 32-bit words of a 64-byte block. -/
def leWords (block : List Nat) : List Nat :=
  (List.range 16).map (fun j =>
    block.getD (4 * j) 0 + 256 * block.getD (4 * j + 1) 0 +
      65536 * block.getD (4 * j + 2) 0 + 16777216 * block.getD (4 * j + 3) 0)

/-- One MD5 operation (of 64) on state st with message words m. -/
def md5Step (m : List Nat) (st : MD5State) (i : Nat) : MD5State :=
  let f := u32 (md5F i st.b st.c st.d + st.a + md5K.getD i 0 + m.getD (md5G i) 0)
  ⟨st.d, u32 (st.b + rotl32 f (md5S.getD i 0)), st.b, st.c⟩

/-- MD5 compression of a single 64-byte block into the chaining state. -/
def md5Block (st : MD5State) (block : List Nat) : MD5State :=
  let m := leWords block
  let r := (List.range 64).foldl (md5Step m) st
  ⟨u32 (st.a + r.a), u32 (st.b + r.b), u32 (st.c + r.c), u32 (st.d + r.d)⟩

/-- MD5 padding: 0x80, zeros to 56 mod 64, then the 64-bit little-endian
bit length. -/
def md5Pad (msg : List Nat) : List Nat :=
  msg ++ [128] ++ List.replicate ((56 + 64 - (msg.length + 1) % 64) % 64) 0 ++
    (List.range 8).map (fun i => ((msg.length * 8) >>> (8 * i)) % 256)

/-- MD5 digest of a byte list as 16 bytes. -/
def md5Bytes (msg : List Nat) : List Nat :=
  let st := (chunks64 (md5Pad msg)).foldl md5Block
    ⟨1732584193, 4023233417, 2562383102, 271733878⟩
  wordLEBytes st.a ++ wordLEBytes st.b ++ wordLEBytes st.c ++ wordLEBytes st.d

/-- MD5 digest of a byte list in lowercase hex, as digest("hex"). -/
def md5Hex (msg : List Nat) : String := bytesToHex (md5Bytes msg)

/-! SHA-256 (FIPS 180-4), the hash inside the HMAC used by scheme V2. -/

/-- SHA-256 round constants K[0..63]. -/
def sha256K : List Nat :=
  [1116352408, 1899447441, 3049323471, 3921009573, 961987163, 1508970993,
   2453635748, 2870763221, 3624381080, 310598401, 607225278, 1426881987,
   1925078388, 2162078206, 2614888103, 3248222580, 3835390401, 4022224774,
   264347078, 604807628, 770255983, 1249150122, 1555081692, 1996064986,
   2554220882, 2821834349, 2952996808, 3210313671, 3336571891, 3584528711,
   113926993, 338241895, 666307205, 773529912, 1294757372, 1396182291,
   1695183700, 1986661051, 2177026350, 2456956037, 2730485921, 2820302411,
   3259730800, 3345764771, 3516065817, 3600352804, 4094571909, 275423344,
   430227734, 506948616, 659060556, 883997877, 958139571, 1322822218,
   1537002063, 1747873779, 1955562222, 2024104815, 2227730452, 2361852424,
   2428436474, 2756734187, 3204031479, 3329325298]

/-- SHA-256 chaining state of eight 32-bit words. -/
structure SHA256State where
  h0 : Nat
  h1 : Nat
  h2 : Nat
  h3 : Nat
  h4 : Nat
  h5 : Nat
  h6 : Nat
  h7 : Nat

/-- Sixteen big-endian 32-bit words of a 64-byte block. -/
def beWords (block : List Nat) : List Nat :=
  (List.range 16).map (fun j =>
    16777216 * block.getD (4 * j) 0 + 65536 * block.getD (4 * j + 1) 0 +
      256 * block.getD (4 * j + 2) 0 + block.getD (4 * j + 3) 0)

/-- SHA-256 small sigma 0. -/
def ssig0 (x : Nat) : Nat := rotr32 x 7 ^^^ rotr32 x 18 ^^^ (x >>> 3)

/-- SHA-256 small sigma 1. -/
def ssig1 (x : Nat) : Nat := rotr32 x 17 ^^^ rotr32 x 19 ^^^ (x >>> 10)

/-- SHA-256 big Sigma 0. -/
def bsig0 (x : Nat) : Nat := rotr32 x 2 ^^^ rotr32 x 13 ^^^ rotr32 x 22

/-- SHA-256 big Sigma 1. -/
def bsig1 (x : Nat) : Nat := rotr32 x 6 ^^^ rotr32 x 11 ^^^ rotr32 x 25

/-- SHA-256 message schedule: extend 16 words to 64. -/
def sha256Schedule (m : List Nat) : List Nat :=
  (List.range 48).foldl (fun w i =>
    w ++ [u32 (ssig1 (w.getD (i + 14) 0) + w.getD (i + 9) 0 +
               ssig0 (w.getD (i + 1) 0) + w.getD i 0)]) m

/-- One SHA-256 compression round t on state st with schedule w. -/
def sha256Comp (w : List Nat) (st : SHA256State) (t : Nat) : SHA256State :=
  let ch := (st.h4 &&& st.h5) ^^^ (not32 st.h4 &&& st.h6)
  let maj := (st.h0 &&& st.h1) ^^^ (st.h0 &&& st.h2) ^^^ (st.h1 &&& st.h2)
  let t1 := u32 (st.h7 + bsig1 st.h4 + ch + sha256K.getD t 0 + w.getD t 0)
  let t2 := u32 (bsig0 st.h0 + maj)
  ⟨u32 (t1 + t2), st.h0, st.h1, st.h2, u32 (st.h3 + t1), st.h4, st.h5, st.h6⟩

/-- SHA-256 compression of a single 64-byte block into the chaining state. -/
def sha256Block (st : SHA256State) (block : List Nat) : SHA256State :=
  let w := sha256Schedule (beWords block)
  let r := (List.range 64).foldl (sha256Comp w) st
  ⟨u32 (st.h0 + r.h0), u32 (st.h1 + r.h1), u32 (st.h2 + r.h2), u32 (st.h3 + r.h3),
   u32 (st.h4 + r.h4), u32 (st.h5 + r.h5), u32 (st.h6 + r.h6), u32 (st.h7 + r.h7)⟩

/-- SHA-256 padding: 0x80, zeros to 56 mod 64, then the 64-bit big-endian
bit length. -/
def sha256Pad (msg : List Nat) : List Nat :=
  msg ++ [128] ++ List.replicate ((56 + 64 - (msg.length + 1) % 64) % 64) 0 ++
    (List.range 8).map (fun i => ((msg.length * 8) >>> (8 * (7 - i))) % 256)

/-- SHA-256 digest of a byte list as 32 bytes. -/
def sha256Bytes (msg : List Nat) : List Nat :=
  let st := (chunks64 (sha256Pad msg)).foldl sha256Block
    ⟨1779033703, 3144134277, 1013904242, 2773480762,
     1359893119, 2600822924, 528734635, 1541459225⟩
  wordBEBytes st.h0 ++ wordBEBytes st.h1 ++ wordBEBytes st.h2 ++ wordBEBytes st.h3 ++
    wordBEBytes st.h4 ++ wordBEBytes st.h5 ++ wordBEBytes st.h6 ++ wordBEBytes st.h7

/-- HMAC-SHA256 (RFC 2104) over byte lists, block size 64. -/
def hmacSha256Bytes (key msg : List Nat) : List Nat :=
  let k0 := if key.length > 64 then sha256Bytes key else key
  let k := k0 ++ List.replicate (64 - k0.length) 0
  let ipad := k.map (fun b => b ^^^ 54)
  let opad := k.map (fun b => b ^^^ 92)
  sha256Bytes (opad ++ sha256Bytes (ipad ++ msg))

/-- HMAC-SHA256 in lowercase hex, as createHmac("sha256", salt).digest("hex"). -/
def hmacSha256Hex (key msg : List Nat) : String := bytesToHex (hmacSha256Bytes key msg)

/-! Signature scheme V2 (src/utils/oauth.ts, generateSignV2). -/

/-- Embeds generateSignV2: build the fixed-field-order header JSON, the
canonical string path ++ body ++ timestamp ++ headerJson, HMAC-SHA256 it
(hex) keyed by salt, then MD5 (hex) the hex HMAC string. -/
def generateSignV2 (path timestamp platform vName salt body : String) : String :=
  let headerJson := "\x7b\"platform\":\"" ++ platform ++ "\",\"timestamp\":\"" ++
    timestamp ++ "\",\"dId\":\"\",\"vName\":\"" ++ vName ++ "\"\x7d"
  let s := path ++ body ++ timestamp ++ headerJson
  let hmac := hmacSha256Hex (strBytes salt) (strBytes s)
  md5Hex (strBytes hmac)

set_option maxRecDepth 100000

/-! Transport error model. A JavaScript exception reaching the retry wrapper is either
an AxiosError (optionally carrying a received response) or any other thrown
value, which the code only ever inspects for its message. -/

/-- Received HTTP response attached to an AxiosError: its status and the
optional message field of its body. -/
structure AxiosResponse where
  status : Int
  dataMessage : Option String
  deriving DecidableEq

/-- Thrown value as the client inspects it: an AxiosError with an optional
response, or any other error carrying a message. -/
inductive JsError where
  | axios (response : Option AxiosResponse) (message : String)
  | other (message : String)
  deriving DecidableEq

/-- Embeds the retry classification in SkportApiClient.withRetry: retryable
iff the error is an AxiosError and no response was received, or the status
is at least 500, or the status is 429. -/
def isRetryable : JsError → Bool
  | JsError.axios none _ => true
  | JsError.axios (some r) _ => decide (500 ≤ r.status) || decide (r.status = 429)
  | JsError.other _ => false

/-- Retry configuration constants of SkportApiClient. -/
def MAX_RETRIES : Nat := 3

/-- Initial backoff delay in milliseconds. -/
def INITIAL_RETRY_DELAY : ℚ := 1000

/-- Backoff delay cap in milliseconds. -/
def MAX_RETRY_DELAY : ℚ := 10000

/-- Base backoff for a 0-indexed attempt: min(INITIAL_RETRY_DELAY * 2^attempt,
MAX_RETRY_DELAY). -/
def retryBaseDelay (attempt : Nat) : ℚ :=
  min (INITIAL_RETRY_DELAY * 2 ^ attempt) MAX_RETRY_DELAY

/-- Backoff wait for a 0-indexed attempt given the Math.random draw r drawn
from [0,1): Math.floor(baseDelay + baseDelay * 0.25 * (r * 2 - 1)). -/
def retryDelay (attempt : Nat) (r : ℚ) : Int :=
  Int.floor (retryBaseDelay attempt + retryBaseDelay attempt * (1 / 4) * (r * 2 - 1))

/-- Observable trace of one withRetry run: the value returned or error
rethrown, how many times the wrapped operation ran, and the waits performed
between attempts, in order. -/
structure RetryTrace (T : Type) where
  result : Except JsError T
  attempts : Nat
  delays : List Int

/-- Embeds the loop body of SkportApiClient.withRetry from the given attempt
index on. The wrapped operation is modelled by the outcome fn k of its k-th
invocation and Math.random by the draw rand k before the wait that follows
attempt k. The fuel argument equals MAX_RETRIES - attempt at every call, so
fuel = 1 exactly on the last permitted attempt; the fuel-0 branch mirrors
the unreachable throw lastError after the loop. -/
def withRetryGo {T : Type} (fn : Nat → Except JsError T) (rand : Nat → ℚ) :
    Nat → Nat → RetryTrace T
  | _, 0 => { result := Except.error (JsError.other "unreachable"), attempts := 0, delays := [] }
  | attempt, f + 1 =>
    match fn attempt with
    | Except.ok v => { result := Except.ok v, attempts := 1, delays := [] }
    | Except.error e =>
      if isRetryable e = false ∨ f = 0 then
        { result := Except.error e, attempts := 1, delays := [] }
      else
        let rest := withRetryGo fn rand (attempt + 1) f
        { result := rest.result, attempts := rest.attempts + 1,
          delays := retryDelay attempt (rand attempt) :: rest.delays }

/-- Embeds SkportApiClient.withRetry: up to MAX_RETRIES attempts starting at
attempt 0. -/
def withRetry {T : Type} (fn : Nat → Except JsError T) (rand : Nat → ℚ) : RetryTrace T :=
  withRetryGo fn rand 0 MAX_RETRIES

/-- Per-attempt outcome is a retryable failure. -/
def retryableErr {T : Type} : Except JsError T → Bool
  | Except.error e => isRetryable e
  | Except.ok _ => false

/-! ApiClient model (src/repositories/SkportApiClient.ts). -/

/-- Generic API response wrapper from src/types: code, optional message,
optional data; code 0 is success. -/
structure ApiResponse (T : Type) where
  code : Int
  message : Option String
  data : Option T
  deriving DecidableEq

/-- Runtime credentials obtained from the OAuth flow. Unused JS number
precision is modelled with Int for the obtainedAt clock reading. -/
structure RuntimeCredentials where
  cred : String
  salt : String
  userId : String
  hgId : Option String
  obtainedAt : Int
  deriving DecidableEq

/-- Embeds SkportApiClient.handleError: an AxiosError yields the attached
response status (or -1 when no response was received) and the response body
message when present, else the error's own message; any other thrown value
yields -1 with its message. -/
def handleError {T : Type} (e : JsError) : ApiResponse T :=
  match e with
  | JsError.axios response message =>
    { code := (response.map AxiosResponse.status).getD (-1),
      message := some ((response.bind AxiosResponse.dataMessage).getD message),
      data := none }
  | JsError.other message =>
    { code := -1, message := some message, data := none }

/-- Message of the Error thrown by buildAccountHeaders when the credential
cache has no entry for the account key. -/
def noCredMsg (key : String) : String :=
  "No credentials available for " ++ key ++ ". Call initOAuth first."

/-- Embeds the shared shape of checkAttendance and claimAttendance: the
request closure first builds account headers — throwing the no-credentials
Error when the cache misses — then performs the transport call, whose
outcome on its k-th invocation is transport k; the closure runs under
withRetry, and the surrounding try/catch normalizes any error through
handleError. The Except result type records what escapes the method: the
catch-all means it always returns a value. Header construction and request
shape (GET with V1 sign, POST with V2 sign) do not affect this result path
and are modelled inside transport. -/
def signedApiCall {T : Type} (creds : Option RuntimeCredentials) (key : String)
    (transport : Nat → Except JsError (ApiResponse T)) (rand : Nat → ℚ) :
    Except JsError (ApiResponse T) :=
  let fn : Nat → Except JsError (ApiResponse T) := fun n =>
    match creds with
    | none => Except.error (JsError.other (noCredMsg key))
    | some _ => transport n
  match (withRetry fn rand).result with
  | Except.ok v => Except.ok v
  | Except.error e => Except.ok (handleError e)

/-- Attendance check response data; fields unused by the client
(records) are omitted. -/
structure AttendanceData where
  hasToday : Bool
  deriving DecidableEq

/-- Reward resource entry of the claim response map. -/
structure ResourceInfo where
  name : String
  count : Int
  icon : String
  deriving DecidableEq

/-- Attendance claim response data: resourceInfoMap keeps the object's key
insertion order as an association list; awardIds is unused by the service
and omitted. -/
structure ClaimData where
  resourceInfoMap : List (String × ResourceInfo)
  deriving DecidableEq

/-- Embeds SkportApiClient.checkAttendance for an account whose cache entry
is creds. -/
def checkAttendance (creds : Option RuntimeCredentials) (key : String)
    (transport : Nat → Except JsError (ApiResponse AttendanceData)) (rand : Nat → ℚ) :
    Except JsError (ApiResponse AttendanceData) :=
  signedApiCall creds key transport rand

/-- Embeds SkportApiClient.claimAttendance for an account whose cache entry
is creds. -/
def claimAttendance (creds : Option RuntimeCredentials) (key : String)
    (transport : Nat → Except JsError (ApiResponse ClaimData)) (rand : Nat → ℚ) :
    Except JsError (ApiResponse ClaimData) :=
  signedApiCall creds key transport rand

/-! OAuth bootstrap model (src/utils/oauth.ts, performOAuthFlow). Responses
are the parsed JSON values the three steps receive; a string field the
server may omit is modelled as present-or-empty only through the JS
falsiness test actually applied to it. -/

/-- Step-1 response body: status, optional data with the hgId actually
read, optional msg. -/
structure BasicInfoData where
  hgId : String
  deriving DecidableEq

/-- Step-1 response wrapper. -/
structure BasicInfoResponse where
  status : Int
  data : Option BasicInfoData
  msg : Option String
  deriving DecidableEq

/-- Step-2 response data: the uid and one-time code. -/
structure GrantData where
  uid : String
  code : String
  deriving DecidableEq

/-- Step-2 response wrapper. -/
structure GrantCodeResponse where
  status : Int
  data : Option GrantData
  msg : Option String
  deriving DecidableEq

/-- Step-3 response data: cred, token and userId as issued. A field absent
from the raw JSON is modelled as the empty string, which is exactly how the
guard's falsiness test treats it. -/
structure GenerateCredData where
  cred : String
  token : String
  userId : String
  deriving DecidableEq

/-- Step-3 response wrapper. -/
structure GenerateCredResponse where
  code : Int
  message : Option String
  data : Option GenerateCredData
  deriving DecidableEq

/-- JS falsiness of an optionally-chained string field: undefined or the
empty string. -/
def optStrFalsy : Option String → Bool
  | none => true
  | some s => s == ""

/-- Embeds performOAuthFlow given the three parsed step responses and the
Date.now() reading taken on success. Each step's network call itself is
assumed to have yielded a body; a thrown network error propagates before
any of this logic and is outside this value model. -/
def performOAuthFlow (basic : BasicInfoResponse) (grant : GrantCodeResponse)
    (credR : GenerateCredResponse) (now : Int) : Except String RuntimeCredentials :=
  if basic.status ≠ 0 then
    Except.error ("OAuth Step 1 failed: " ++
      basic.msg.getD ("status " ++ toString basic.status))
  else if grant.status ≠ 0 ∨ optStrFalsy (grant.data.map GrantData.code) then
    Except.error ("OAuth Step 2 failed: " ++
      grant.msg.getD ("status " ++ toString grant.status))
  else if credR.code ≠ 0 ∨ optStrFalsy (credR.data.map GenerateCredData.cred) then
    Except.error ("OAuth Step 3 failed: " ++
      credR.message.getD ("code " ++ toString credR.code))
  else
    Except.ok
      { cred := (credR.data.map GenerateCredData.cred).getD "",
        salt := (credR.data.map GenerateCredData.token).getD "",
        userId := (credR.data.map GenerateCredData.userId).getD "",
        hgId := basic.data.map BasicInfoData.hgId,
        obtainedAt := now }

/-! CheckInService model (src/services/CheckInService.ts). -/

/-- Account configuration. -/
structure Account where
  account_token : String
  sk_game_role : String
  deriving DecidableEq

/-- Reward item extracted from the claim response. -/
structure Reward where
  name : String
  count : Int
  icon : String
  deriving DecidableEq

/-- Check-in status of one account. -/
inductive CheckInStatus where
  | claimed
  | already_claimed
  | error
  deriving DecidableEq

/-- Check-in operation result per account; the optional profile and game
fields are never set by this service and are omitted. -/
structure CheckInResult where
  uid : String
  status : CheckInStatus
  rewards : List Reward
  error : Option String
  deriving DecidableEq

/-- Observable API-client calls a per-account pipeline can make. -/
inductive ApiCall where
  | initOAuth
  | check
  | claim
  deriving DecidableEq

/-- Abstract behaviour of the ApiClient for one account in one run: whether
initOAuth succeeds, and the (already normalized, never-throwing) responses
the two attendance operations would return. -/
structure ClientBehavior where
  initOk : Bool
  checkResp : ApiResponse AttendanceData
  claimResp : ApiResponse ClaimData

/-- JS reading of checkResponse.data?.hasToday: false when data is absent. -/
def hasTodayOf (resp : ApiResponse AttendanceData) : Bool :=
  match resp.data with
  | some d => d.hasToday
  | none => false

/-- Rewards extracted from claimResponse.data?.resourceInfoMap via
Object.values, empty when data is absent. -/
def rewardsOf (resp : ApiResponse ClaimData) : List Reward :=
  match resp.data with
  | some d => d.resourceInfoMap.map (fun p => ⟨p.2.name, p.2.count, p.2.icon⟩)
  | none => []

/-- Embeds CheckInService.executeForAccount, also returning the ordered
list of ApiClient calls performed. The apiClient methods modelled here
never throw (initOAuth and the attendance calls normalize internally), so
the surrounding catch-all is unreachable in this model. -/
def executeForAccount (env : ClientBehavior) (account : Account) :
    CheckInResult × List ApiCall :=
  if env.initOk = false then
    ({ uid := account.sk_game_role, status := CheckInStatus.error, rewards := [],
       error := some "Failed to initialize OAuth credentials" },
     [ApiCall.initOAuth])
  else if env.checkResp.code ≠ 0 then
    ({ uid := account.sk_game_role, status := CheckInStatus.error, rewards := [],
       error := some (env.checkResp.message.getD "Failed to check attendance") },
     [ApiCall.initOAuth, ApiCall.check])
  else if hasTodayOf env.checkResp then
    ({ uid := account.sk_game_role, status := CheckInStatus.already_claimed,
       rewards := [], error := none },
     [ApiCall.initOAuth, ApiCall.check])
  else if env.claimResp.code ≠ 0 then
    ({ uid := account.sk_game_role, status := CheckInStatus.error, rewards := [],
       error := some (env.claimResp.message.getD "Failed to claim reward") },
     [ApiCall.initOAuth, ApiCall.check, ApiCall.claim])
  else
    ({ uid := account.sk_game_role, status := CheckInStatus.claimed,
       rewards := rewardsOf env.claimResp, error := none },
     [ApiCall.initOAuth, ApiCall.check, ApiCall.claim])

/-- Slot writes of processConcurrently: each pipeline i eventually performs
results[i] = f i; order lists the indices in completion order, and folding
it replays the writes into the slot array (initially all undefined). -/
def applyWrites {n : Nat} {R : Type} (f : Fin n → R) (order : List (Fin n)) :
    Fin n → Option R :=
  order.foldl (fun acc i => fun j => if j = i then some (f i) else acc j)
    (fun _ => none)

/-- Embeds CheckInService.processConcurrently observed at an arbitrary
completion order: slot i is written with the processor applied to item i
and index i; the final filter drops undefined slots. The concurrency limit
only constrains which completion orders can occur, so quantifying over all
orders covers every schedule; an Account object is always truthy, so the
falsy-item skip in the loop never fires. -/
def processConcurrently {A R : Type} (items : List A) (proc : A → Nat → R)
    (order : List (Fin items.length)) : List R :=
  (List.finRange items.length).filterMap
    (applyWrites (fun i => proc (items.get i) i.val) order)

/-- Hypothesis of the implicit error-code claim: an error that carries a
received response never carries HTTP status 0. -/
def errStatusNonzero (e : JsError) : Prop :=
  ∀ r m, e = JsError.axios (some r) m → r.status ≠ 0

/-! Helper lemmas characterising withRetryGo, proved by induction on the
remaining fuel. -/

theorem withRetryGo_attempts_pos {T : Type} (fn : Nat → Except JsError T)
    (rand : Nat → ℚ) (a f : Nat) : 1 ≤ (withRetryGo fn rand a (f + 1)).attempts := by
  unfold withRetryGo
  cases fn a with
  | ok v => simp
  | error e =>
    by_cases hc : isRetryable e = false ∨ f = 0 <;> simp [hc]

theorem retry_guard_neg (f : Nat) : ¬((true : Bool) = false ∨ f + 1 = 0) := by
  rintro (hc | hc)
  · exact Bool.noConfusion hc
  · exact Nat.succ_ne_zero f hc

theorem withRetryGo_attempts_le {T : Type} (fn : Nat → Except JsError T)
    (rand : Nat → ℚ) (f : Nat) :
    ∀ a, (withRetryGo fn rand a (f + 1)).attempts ≤ f + 1 := by
  induction f with
  | zero =>
    intro a
    unfold withRetryGo
    cases fn a with
    | ok v => simp
    | error e => simp
  | succ f ih =>
    intro a
    unfold withRetryGo
    cases fn a with
    | ok v => simp
    | error e =>
      dsimp only
      cases hb : isRetryable e with
      | false =>
        rw [if_pos (Or.inl rfl)]
        simp
      | true =>
        rw [if_neg (retry_guard_neg f)]
        dsimp only
        have := ih (a + 1)
        omega

theorem withRetryGo_result {T : Type} (fn : Nat → Except JsError T)
    (rand : Nat → ℚ) (f : Nat) :
    ∀ a, (withRetryGo fn rand a (f + 1)).result =
      fn (a + ((withRetryGo fn rand a (f + 1)).attempts - 1)) := by
  induction f with
  | zero =>
    intro a
    unfold withRetryGo
    cases h : fn a with
    | ok v => simpa using h.symm
    | error e => simpa using h.symm
  | succ f ih =>
    intro a
    unfold withRetryGo
    cases h : fn a with
    | ok v => simpa using h.symm
    | error e =>
      dsimp only
      cases hb : isRetryable e with
      | false =>
        rw [if_pos (Or.inl rfl)]
        simpa using h.symm
      | true =>
        rw [if_neg (retry_guard_neg f)]
        dsimp only
        have hr := ih (a + 1)
        have hp := withRetryGo_attempts_pos fn rand (a + 1) f
        rw [hr]
        congr 1
        omega

theorem withRetryGo_delays_eq {T : Type} (fn : Nat → Except JsError T)
    (rand : Nat → ℚ) (f : Nat) :
    ∀ a, (withRetryGo fn rand a (f + 1)).delays =
      (List.range ((withRetryGo fn rand a (f + 1)).attempts - 1)).map
        (fun n => retryDelay (a + n) (rand (a + n))) := by
  induction f with
  | zero =>
    intro a
    unfold withRetryGo
    cases fn a with
    | ok v => simp
    | error e => simp
  | succ f ih =>
    intro a
    unfold withRetryGo
    cases fn a with
    | ok v => simp
    | error e =>
      dsimp only
      cases hb : isRetryable e with
      | false =>
        rw [if_pos (Or.inl rfl)]
        simp
      | true =>
        rw [if_neg (retry_guard_neg f)]
        dsimp only
        have hp := withRetryGo_attempts_pos fn rand (a + 1) f
        obtain ⟨k, hk⟩ : ∃ k, (withRetryGo fn rand (a + 1) (f + 1)).attempts = k + 1 :=
          ⟨(withRetryGo fn rand (a + 1) (f + 1)).attempts - 1, by omega⟩
        rw [ih (a + 1), hk]
        simp only [Nat.add_sub_cancel, List.range_succ_eq_map, List.map_cons, List.map_map,
          Nat.add_zero]
        congr 1
        apply List.map_congr_left
        intro m _
        simp only [Function.comp_apply]
        have hh : a + 1 + m = a + Nat.succ m := by omega
        rw [hh]

theorem withRetryGo_next_iff {T : Type} (fn : Nat → Except JsError T)
    (rand : Nat → ℚ) (f : Nat) :
    ∀ a n, (n + 1 < (withRetryGo fn rand a (f + 1)).attempts ↔
      (n < (withRetryGo fn rand a (f + 1)).attempts ∧ n + 1 < f + 1 ∧
        retryableErr (fn (a + n)) = true)) := by
  induction f with
  | zero =>
    intro a n
    unfold withRetryGo
    cases h : fn a with
    | ok v =>
      dsimp only
      constructor
      · intro hlt; omega
      · rintro ⟨hn, hf, -⟩; omega
    | error e =>
      dsimp only
      rw [if_pos (Or.inr rfl)]
      dsimp only
      constructor
      · intro hlt; omega
      · rintro ⟨hn, hf, -⟩; omega
  | succ f ih =>
    intro a n
    unfold withRetryGo
    cases h : fn a with
    | ok v =>
      dsimp only
      constructor
      · intro hlt; omega
      · rintro ⟨hn, -, hr⟩
        have hn0 : n = 0 := by omega
        subst hn0
        rw [Nat.add_zero, h] at hr
        simp [retryableErr] at hr
    | error e =>
      dsimp only
      cases hb : isRetryable e with
      | false =>
        rw [if_pos (Or.inl rfl)]
        dsimp only
        constructor
        · intro hlt; omega
        · rintro ⟨hn, -, hr⟩
          have hn0 : n = 0 := by omega
          subst hn0
          rw [Nat.add_zero, h] at hr
          simp only [retryableErr] at hr
          rw [hb] at hr
          exact absurd hr (by simp)
      | true =>
        rw [if_neg (retry_guard_neg f)]
        dsimp only
        have hpos := withRetryGo_attempts_pos fn rand (a + 1) f
        match n with
        | 0 =>
          have hfn : retryableErr (fn (a + 0)) = true := by
            show retryableErr (fn a) = true
            rw [h]
            simp [retryableErr, hb]
          constructor
          · intro _; exact ⟨by omega, by omega, hfn⟩
          · intro _; omega
        | m + 1 =>
          have hi := ih (a + 1) m
          have hidx : a + 1 + m = a + (m + 1) := by omega
          rw [hidx] at hi
          constructor
          · intro hlt
            have hm : m + 1 < (withRetryGo fn rand (a + 1) (f + 1)).attempts := by omega
            rcases hi.mp hm with ⟨h1, h2, h3⟩
            exact ⟨by omega, by omega, h3⟩
          · rintro ⟨h1, h2, h3⟩
            have hm : m + 1 < (withRetryGo fn rand (a + 1) (f + 1)).attempts :=
              hi.mpr ⟨by omega, by omega, h3⟩
            omega

/-! Known-answer anchors tying the crypto embeddings to their standards. -/

/-- Known-answer test anchoring the MD5 embedding to RFC 1321. -/
theorem md5Hex_known_vector :
    md5Hex (strBytes "abc") = "900150983cd24fb0d6963f7d28e17f72" := by decide

/-- Known-answer test anchoring the SHA-256 embedding to FIPS 180-4. -/
theorem sha256_known_vector : bytesToHex (sha256Bytes (strBytes "abc")) =
    "ba7816bf8f01cfea414140de5dae2223b00361a396177a9cb410ff61f20015ad" := by decide

/-- Known-answer test anchoring the HMAC-SHA256 embedding to the classic
RFC 2104 example. -/
theorem hmacSha256_known_vector :
    hmacSha256Hex (strBytes "key") (strBytes "The quick brown fox jumps over the lazy dog") =
      "f7bc83f430538424b13298e6aa6fb143ef4d59a14946175997479dbc2d1a3cd8" := by decide

/-- Known-answer test for the complete V2 signature on the claim path,
cross-checked against an independent implementation of the same pipeline. -/
theorem generateSignV2_known_vector :
    generateSignV2 "/web/v1/game/endfield/attendance" "1700000000" "3" "1.0.0" "salt" "" =
      "fcd1901a0a1f83a8cfe10dad156b138a" := by decide

/-! Bridging lemmas for withRetry at its actual configuration
(MAX_RETRIES = 3). -/

theorem withRetry_attempts_pos {T : Type} (fn : Nat → Except JsError T)
    (rand : Nat → ℚ) : 1 ≤ (withRetry fn rand).attempts :=
  withRetryGo_attempts_pos fn rand 0 2

theorem withRetry_attempts_le3 {T : Type} (fn : Nat → Except JsError T)
    (rand : Nat → ℚ) : (withRetry fn rand).attempts ≤ 3 :=
  withRetryGo_attempts_le fn rand 2 0

theorem withRetry_result_eq {T : Type} (fn : Nat → Except JsError T)
    (rand : Nat → ℚ) :
    (withRetry fn rand).result = fn ((withRetry fn rand).attempts - 1) := by
  have h := withRetryGo_result fn rand 2 0
  rw [Nat.zero_add] at h
  exact h

theorem withRetry_delays_spec {T : Type} (fn : Nat → Except JsError T)
    (rand : Nat → ℚ) :
    (withRetry fn rand).delays =
      (List.range ((withRetry fn rand).attempts - 1)).map (fun n => retryDelay n (rand n)) := by
  have h := withRetryGo_delays_eq fn rand 2 0
  simp only [Nat.zero_add] at h
  exact h

theorem withRetry_delays_count {T : Type} (fn : Nat → Except JsError T)
    (rand : Nat → ℚ) :
    (withRetry fn rand).delays.length + 1 = (withRetry fn rand).attempts := by
  have hp := withRetry_attempts_pos fn rand
  rw [withRetry_delays_spec fn rand]
  simp only [List.length_map, List.length_range]
  omega

theorem withRetry_next_iff {T : Type} (fn : Nat → Except JsError T)
    (rand : Nat → ℚ) (n : Nat) :
    n + 1 < (withRetry fn rand).attempts ↔
      (n < (withRetry fn rand).attempts ∧ n + 1 < 3 ∧ retryableErr (fn n) = true) := by
  have h := withRetryGo_next_iff fn rand 2 0 n
  simp only [Nat.zero_add] at h
  exact h

/-- Floor of a rational squeezed between integer bounds. -/
theorem floor_bounds {x : ℚ} {lo hi : ℤ} (h1 : (lo : ℚ) ≤ x) (h2 : x < (hi : ℚ) + 1) :
    lo ≤ Int.floor x ∧ Int.floor x ≤ hi := by
  constructor
  · exact Int.le_floor.mpr h1
  · have h3 : Int.floor x < hi + 1 := Int.floor_lt.mpr (by push_cast; linarith)
    omega

/-- V2 signatures depend on path and body only through their concatenation
inside the canonical string. -/
theorem signV2_concat_only {p1 b1 p2 b2 ts pf vn s : String} (h : p1 ++ b1 = p2 ++ b2) :
    generateSignV2 p1 ts pf vn s b1 = generateSignV2 p2 ts pf vn s b2 := by
  simp only [generateSignV2]
  rw [h]

/-- C1: for every path, timestamp, platform, vName, salt and body,
generateSignV2 returns the hex MD5 digest of the hex-encoded HMAC-SHA256,
keyed by salt, of path ++ body ++ timestamp ++ headerJson, where headerJson
is exactly the JSON text with fields platform, timestamp, dId (empty) and
vName in that fixed order. -/
theorem generateSignV2_spec (path ts platform vName salt body : String) :
    generateSignV2 path ts platform vName salt body =
      md5Hex (strBytes (hmacSha256Hex (strBytes salt) (strBytes (path ++ body ++ ts ++
        ("\x7b\"platform\":\"" ++ platform ++ "\",\"timestamp\":\"" ++ ts ++
          "\",\"dId\":\"\",\"vName\":\"" ++ vName ++ "\"\x7d"))))) := rfl

/-- C9 counterexample: moving a character from path to body leaves the
canonical string, and hence the signature, unchanged, so two different
input tuples produce the same output, refuting the claimed iff. -/
theorem signV2_injective_cex :
    generateSignV2 "ab" "t" "p" "v" "s" "" = generateSignV2 "a" "t" "p" "v" "s" "b" ∧
    (("ab", "t", "p", "v", "s", "") :
        String × String × String × String × String × String) ≠
      ("a", "t", "p", "v", "s", "b") := by
  constructor
  · exact signV2_concat_only (by decide)
  · decide

/-- C9 amended: identical tuples always produce identical output, and more
generally the output depends on path and body only through their
concatenation, so distinct tuples can collide. -/
theorem signV2_concat_amended (p1 b1 p2 b2 ts pf vn s : String)
    (h : p1 ++ b1 = p2 ++ b2) :
    generateSignV2 p1 ts pf vn s b1 = generateSignV2 p2 ts pf vn s b2 :=
  signV2_concat_only h

/-- C9 amended witness at a concrete boundary shift. -/
theorem signV2_concat_amended_witness :
    generateSignV2 "xy" "t2" "p2" "v2" "s2" "" = generateSignV2 "x" "t2" "p2" "v2" "s2" "y" :=
  signV2_concat_amended "xy" "" "x" "y" "t2" "p2" "v2" "s2" (by decide)

/-- C2: withRetry makes between 1 and 3 attempts; the outcome is exactly
the final attempt's outcome, so a non-retryable failure or budget
exhaustion rethrows that error, with exactly one wait per non-final
attempt; attempt n is followed by a further attempt iff it happened, it
failed retryably and the budget allows attempt n + 1; and the three mock
scenarios behave as specified: 503, 503 then success gives 3 attempts
returning the success; persistent 503 gives 3 attempts surfacing the
error; a 400 response gives exactly 1 attempt surfacing the error. -/
theorem withRetry_policy {T : Type} (fn : Nat → Except JsError T) (rand : Nat → ℚ) :
    (1 ≤ (withRetry fn rand).attempts ∧ (withRetry fn rand).attempts ≤ 3) ∧
    (withRetry fn rand).result = fn ((withRetry fn rand).attempts - 1) ∧
    (withRetry fn rand).delays.length + 1 = (withRetry fn rand).attempts ∧
    (∀ n, n + 1 < (withRetry fn rand).attempts ↔
      (n < (withRetry fn rand).attempts ∧ n + 1 < 3 ∧ retryableErr (fn n) = true)) ∧
    (∀ rand2 : Nat → ℚ,
      (withRetry (fun k => if k < 2
          then Except.error (JsError.axios (some ⟨503, none⟩) "e503")
          else Except.ok (0 : Nat)) rand2).attempts = 3 ∧
      (withRetry (fun k => if k < 2
          then Except.error (JsError.axios (some ⟨503, none⟩) "e503")
          else Except.ok (0 : Nat)) rand2).result = Except.ok 0) ∧
    (∀ rand2 : Nat → ℚ,
      (withRetry (fun _ => (Except.error (JsError.axios (some ⟨503, none⟩) "e503") :
          Except JsError Nat)) rand2).attempts = 3 ∧
      (withRetry (fun _ => (Except.error (JsError.axios (some ⟨503, none⟩) "e503") :
          Except JsError Nat)) rand2).result =
        Except.error (JsError.axios (some ⟨503, none⟩) "e503")) ∧
    (∀ rand2 : Nat → ℚ,
      (withRetry (fun _ => (Except.error (JsError.axios (some ⟨400, none⟩) "e400") :
          Except JsError Nat)) rand2).attempts = 1 ∧
      (withRetry (fun _ => (Except.error (JsError.axios (some ⟨400, none⟩) "e400") :
          Except JsError Nat)) rand2).result =
        Except.error (JsError.axios (some ⟨400, none⟩) "e400")) := by
  refine ⟨⟨withRetry_attempts_pos fn rand, withRetry_attempts_le3 fn rand⟩,
    withRetry_result_eq fn rand, withRetry_delays_count fn rand,
    withRetry_next_iff fn rand, ?_, ?_, ?_⟩
  · intro rand2
    exact ⟨rfl, rfl⟩
  · intro rand2
    exact ⟨rfl, rfl⟩
  · intro rand2
    exact ⟨rfl, rfl⟩

/-- C2 witness: the 400-mock scenario instantiated with a concrete jitter
source. -/
theorem withRetry_policy_witness :
    (withRetry (fun _ => (Except.error (JsError.axios (some ⟨400, none⟩) "e400") :
        Except JsError Nat)) (fun _ => 0)).attempts = 1 :=
  ((withRetry_policy (fun _ => (Except.error (JsError.axios (some ⟨400, none⟩) "e400") :
      Except JsError Nat)) (fun _ => 0)).2.2.2.2.2.2 (fun _ => 0)).1

/-- C3: the wait scheduled after a retried attempt n is
floor(base + jitter) with base = min(1000 * 2^n, 10000) and jitter a signed
quarter-of-base perturbation from the uniform draw; for every draw in
[0,1) the waits for attempts 0, 1, 2 lie in [750,1250], [1500,2500] and
[3000,5000] ms; a trace carries exactly the waits of its non-final
attempts in order, so no wait follows the final attempt. -/
theorem retryBackoff_spec :
    (∀ (attempt : Nat) (r : ℚ),
      retryBaseDelay attempt = min ((1000 : ℚ) * 2 ^ attempt) 10000 ∧
      retryDelay attempt r =
        Int.floor (retryBaseDelay attempt + retryBaseDelay attempt * (1 / 4) * (r * 2 - 1))) ∧
    (∀ r : ℚ, 0 ≤ r → r < 1 →
      (750 ≤ retryDelay 0 r ∧ retryDelay 0 r ≤ 1250) ∧
      (1500 ≤ retryDelay 1 r ∧ retryDelay 1 r ≤ 2500) ∧
      (3000 ≤ retryDelay 2 r ∧ retryDelay 2 r ≤ 5000)) ∧
    (∀ (T : Type) (fn : Nat → Except JsError T) (rand : Nat → ℚ),
      (withRetry fn rand).delays.length + 1 = (withRetry fn rand).attempts ∧
      (withRetry fn rand).delays =
        (List.range ((withRetry fn rand).attempts - 1)).map
          (fun n => retryDelay n (rand n))) := by
  refine ⟨fun attempt r => ⟨rfl, rfl⟩, ?_, fun T fn rand =>
    ⟨withRetry_delays_count fn rand, withRetry_delays_spec fn rand⟩⟩
  intro r h0 h1
  have hb0 : retryBaseDelay 0 = 1000 := by
    norm_num [retryBaseDelay, INITIAL_RETRY_DELAY, MAX_RETRY_DELAY]
  have hb1 : retryBaseDelay 1 = 2000 := by
    norm_num [retryBaseDelay, INITIAL_RETRY_DELAY, MAX_RETRY_DELAY]
  have hb2 : retryBaseDelay 2 = 4000 := by
    norm_num [retryBaseDelay, INITIAL_RETRY_DELAY, MAX_RETRY_DELAY]
  refine ⟨?_, ?_, ?_⟩
  · unfold retryDelay
    rw [hb0]
    exact floor_bounds (by push_cast; linarith) (by push_cast; linarith)
  · unfold retryDelay
    rw [hb1]
    exact floor_bounds (by push_cast; linarith) (by push_cast; linarith)
  · unfold retryDelay
    rw [hb2]
    exact floor_bounds (by push_cast; linarith) (by push_cast; linarith)

/-- C3 witness: the attempt-0 band at the midpoint draw. -/
theorem retryBackoff_spec_witness :
    750 ≤ retryDelay 0 (1 / 2) ∧ retryDelay 0 (1 / 2) ≤ 1250 :=
  (retryBackoff_spec.2.1 (1 / 2) (by norm_num) (by norm_num)).1

/-- C4: when credentials initialize and the status check succeeds with code
0 reporting hasToday, the pipeline reports AlreadyClaimed with no rewards
and never invokes the claim operation. -/
theorem alreadyClaimed_skips_claim (env : ClientBehavior) (account : Account)
    (d : AttendanceData) (h1 : env.initOk = true) (h2 : env.checkResp.code = 0)
    (h3 : env.checkResp.data = some d) (h4 : d.hasToday = true) :
    (executeForAccount env account).1.status = CheckInStatus.already_claimed ∧
    (executeForAccount env account).1.rewards = [] ∧
    ApiCall.claim ∉ (executeForAccount env account).2 := by
  unfold executeForAccount
  rw [h1]
  simp [h2, hasTodayOf, h3, h4]

/-- C4 witness on a concrete already-claimed environment. -/
theorem alreadyClaimed_skips_claim_witness :
    (executeForAccount ⟨true, ⟨0, none, some ⟨true⟩⟩, ⟨0, none, none⟩⟩
        ⟨"tok", "role"⟩).1.status = CheckInStatus.already_claimed ∧
    (executeForAccount ⟨true, ⟨0, none, some ⟨true⟩⟩, ⟨0, none, none⟩⟩
        ⟨"tok", "role"⟩).1.rewards = [] ∧
    ApiCall.claim ∉ (executeForAccount ⟨true, ⟨0, none, some ⟨true⟩⟩, ⟨0, none, none⟩⟩
        ⟨"tok", "role"⟩).2 :=
  alreadyClaimed_skips_claim ⟨true, ⟨0, none, some ⟨true⟩⟩, ⟨0, none, none⟩⟩
    ⟨"tok", "role"⟩ ⟨true⟩ rfl rfl rfl rfl

/-- C5 counterexample: a step-3 response with code 0, a nonempty cred and
an absent (empty) token makes the flow succeed with an empty salt, so the
flow does not fail when the token is missing. -/
theorem oauthStep3_token_unchecked_cex :
    performOAuthFlow ⟨0, some ⟨"hg"⟩, none⟩ ⟨0, some ⟨"uid0", "CODE"⟩, none⟩
        ⟨0, none, some ⟨"credv", "", "user1"⟩⟩ 5 =
      Except.ok ⟨"credv", "", "user1", some "hg", 5⟩ := rfl

/-- C5 amended: after steps 1 and 2 pass, the flow fails with the step-3
error exactly when the response code is nonzero or no truthy cred is
present — the token is not checked — and on step-3 success the credentials
take the step-3 token as salt and the step-3 userId. -/
theorem oauthStep3_amended (basic : BasicInfoResponse) (grant : GrantCodeResponse)
    (credR : GenerateCredResponse) (now : Int)
    (h1 : basic.status = 0) (h2 : grant.status = 0)
    (h3 : optStrFalsy (grant.data.map GrantData.code) = false) :
    ((credR.code ≠ 0 ∨ optStrFalsy (credR.data.map GenerateCredData.cred) = true) →
      performOAuthFlow basic grant credR now =
        Except.error ("OAuth Step 3 failed: " ++
          credR.message.getD ("code " ++ toString credR.code))) ∧
    (∀ d : GenerateCredData, credR.data = some d → credR.code = 0 → d.cred ≠ "" →
      performOAuthFlow basic grant credR now =
        Except.ok ⟨d.cred, d.token, d.userId, basic.data.map BasicInfoData.hgId, now⟩) := by
  constructor
  · intro hfail
    unfold performOAuthFlow
    rw [if_neg (by simp [h1]), if_neg (by simp [h2, h3])]
    rw [if_pos]
    rcases hfail with hf | hf
    · exact Or.inl hf
    · exact Or.inr hf
  · intro d hd hcode hcred
    unfold performOAuthFlow
    rw [if_neg (by simp [h1]), if_neg (by simp [h2, h3]), if_neg]
    · simp [hd]
    · rw [hd]
      simp [hcode, optStrFalsy, hcred]

/-- C5 amended witness: a fully successful flow carrying the issued token
as salt. -/
theorem oauthStep3_amended_witness :
    performOAuthFlow ⟨0, some ⟨"hg"⟩, none⟩ ⟨0, some ⟨"uid0", "CODE"⟩, none⟩
        ⟨0, none, some ⟨"c1", "t1", "u1"⟩⟩ 7 =
      Except.ok ⟨"c1", "t1", "u1", some "hg", 7⟩ :=
  (oauthStep3_amended ⟨0, some ⟨"hg"⟩, none⟩ ⟨0, some ⟨"uid0", "CODE"⟩, none⟩
      ⟨0, none, some ⟨"c1", "t1", "u1"⟩⟩ 7 rfl rfl rfl).2
    ⟨"c1", "t1", "u1"⟩ rfl rfl (by decide)

/-- C6 counterexample: with no cached credentials checkAttendance returns a
normalized ApiResult with code -1 and the no-credentials message instead of
letting the contract error escape. -/
theorem checkAttendance_noCred_cex :
    checkAttendance none "role1" (fun _ => Except.ok ⟨0, none, some ⟨false⟩⟩) (fun _ => 0) =
      Except.ok ⟨-1, some (noCredMsg "role1"), none⟩ := rfl

/-- C6 amended: buildAccountHeaders throws the no-credentials contract
Error, but the surrounding catch in checkAttendance normalizes it, so for
every transport and jitter source the call returns ApiResult with code -1
and the no-credentials message rather than raising. -/
theorem checkAttendance_noCred_amended (key : String)
    (transport : Nat → Except JsError (ApiResponse AttendanceData)) (rand : Nat → ℚ) :
    checkAttendance none key transport rand =
      Except.ok ⟨-1, some (noCredMsg key), none⟩ := rfl

/-- C7 counterexample: when initOAuth fails the outcome's message is
"Failed to initialize OAuth credentials", not the claimed "Failed to
initialize credentials". -/
theorem initFailure_message_cex :
    (executeForAccount ⟨false, ⟨0, none, none⟩, ⟨0, none, none⟩⟩
        ⟨"tok", "role"⟩).1.error ≠ some "Failed to initialize credentials" ∧
    (executeForAccount ⟨false, ⟨0, none, none⟩, ⟨0, none, none⟩⟩
        ⟨"tok", "role"⟩).1.error = some "Failed to initialize OAuth credentials" := by
  decide

/-- C7 amended: when initOAuth returns false the pipeline stops after the
init call with an Error outcome whose message is "Failed to initialize
OAuth credentials"; neither the check nor the claim operation runs. -/
theorem initFailure_amended (env : ClientBehavior) (account : Account)
    (h : env.initOk = false) :
    executeForAccount env account =
      ({ uid := account.sk_game_role, status := CheckInStatus.error, rewards := [],
         error := some "Failed to initialize OAuth credentials" },
       [ApiCall.initOAuth]) := by
  unfold executeForAccount
  rw [h]
  simp

/-- C7 amended witness on a concrete failing environment. -/
theorem initFailure_amended_witness :
    executeForAccount ⟨false, ⟨0, none, none⟩, ⟨0, none, none⟩⟩ ⟨"tok", "role"⟩ =
      ({ uid := "role", status := CheckInStatus.error, rewards := [],
         error := some "Failed to initialize OAuth credentials" },
       [ApiCall.initOAuth]) :=
  initFailure_amended ⟨false, ⟨0, none, none⟩, ⟨0, none, none⟩⟩ ⟨"tok", "role"⟩ rfl

/-- Replaying the slot writes in any order leaves slot j holding the value
written for j once j has been written, and its start value otherwise. -/
theorem applyWrites_foldl {n : Nat} {R : Type} (f : Fin n → R) (order : List (Fin n))
    (acc : Fin n → Option R) (j : Fin n) :
    order.foldl (fun acc2 i => fun k => if k = i then some (f i) else acc2 k) acc j =
      if j ∈ order then some (f j) else acc j := by
  induction order generalizing acc with
  | nil => simp
  | cons i rest ih =>
    simp only [List.foldl_cons]
    rw [ih]
    by_cases hj : j ∈ rest
    · simp [hj]
    · by_cases hji : j = i
      · subst hji
        simp [hj]
      · simp [hj, hji]

/-- A slot contained in the completion order holds its pipeline's value. -/
theorem applyWrites_eq {n : Nat} {R : Type} (f : Fin n → R) (order : List (Fin n))
    (j : Fin n) (hj : j ∈ order) : applyWrites f order j = some (f j) := by
  unfold applyWrites
  rw [applyWrites_foldl]
  simp [hj]

/-- C8: whenever every pipeline completes (the completion order is a
permutation of all indices), the output equals the input-ordered list of
per-account outcomes: one outcome per input account, with the outcome at
index i computed from input item i, independent of completion order. -/
theorem processConcurrently_positional {A R : Type} (items : List A) (proc : A → Nat → R)
    (order : List (Fin items.length)) (hperm : order.Perm (List.finRange items.length)) :
    processConcurrently items proc order =
      (List.finRange items.length).map (fun i => proc (items.get i) i.val) ∧
    (processConcurrently items proc order).length = items.length ∧
    (∀ (i : Fin items.length) (h2 : i.val < (processConcurrently items proc order).length),
      (processConcurrently items proc order).get ⟨i.val, h2⟩ = proc (items.get i) i.val) := by
  have hmem : ∀ i : Fin items.length, i ∈ order := fun i =>
    hperm.mem_iff.mpr (List.mem_finRange i)
  have heq : processConcurrently items proc order =
      (List.finRange items.length).map (fun i => proc (items.get i) i.val) := by
    unfold processConcurrently
    rw [List.filterMap_eq_map_iff_forall_eq_some]
    intro i _
    exact applyWrites_eq _ _ _ (hmem i)
  refine ⟨heq, by rw [heq]; simp, ?_⟩
  intro i h2
  rw [List.get_of_eq heq]
  simp only [List.get_eq_getElem, List.getElem_map, List.getElem_finRange]
  rfl

/-- C8 witness: three items completing in the order 2, 0, 1 still land
positionally. -/
theorem processConcurrently_positional_witness :
    processConcurrently ["a", "b", "c"] (fun s k => s ++ toString k)
        [⟨2, by decide⟩, ⟨0, by decide⟩, ⟨1, by decide⟩] = ["a0", "b1", "c2"] := by
  have h := (processConcurrently_positional ["a", "b", "c"] (fun s k => s ++ toString k)
      [⟨2, by decide⟩, ⟨0, by decide⟩, ⟨1, by decide⟩] (by decide)).1
  rw [h]
  decide

/-- Normalized failures never carry code 0 when attached statuses are
nonzero. -/
theorem handleError_nonzero_aux {T : Type} (e : JsError) (he : errStatusNonzero e) :
    (handleError e : ApiResponse T).code ≠ 0 := by
  cases e with
  | axios response message =>
    cases response with
    | none => simp [handleError]
    | some r =>
      have := he r message rfl
      simp [handleError]
      exact this
  | other message => simp [handleError]

/-- With cached credentials present the signed call reduces to the retry
wrapper over the transport with error normalization. -/
theorem signedApiCall_some {T : Type} (c : RuntimeCredentials) (key : String)
    (transport : Nat → Except JsError (ApiResponse T)) (rand : Nat → ℚ) :
    signedApiCall (some c) key transport rand =
      (match (withRetry transport rand).result with
       | Except.ok v => Except.ok v
       | Except.error e => Except.ok (handleError e)) := rfl

/-- C10: every failure normalized by handleError carries a nonzero code
(the attached status when a response exists, the sentinel -1 otherwise,
under the hypothesis that attached statuses are never 0), so a signed call
returns a result with code 0 only when some transport invocation actually
returned a server body reporting code 0, namely the returned one. -/
theorem handleError_code_zero :
    (∀ (T : Type) (e : JsError), errStatusNonzero e →
      (handleError e : ApiResponse T).code ≠ 0) ∧
    (∀ (T : Type) (creds : Option RuntimeCredentials) (key : String)
        (transport : Nat → Except JsError (ApiResponse T)) (rand : Nat → ℚ)
        (res : ApiResponse T),
      (∀ n e, transport n = Except.error e → errStatusNonzero e) →
      signedApiCall creds key transport rand = Except.ok res →
      res.code = 0 →
      ∃ n, transport n = Except.ok res) := by
  constructor
  · intro T e he
    exact handleError_nonzero_aux e he
  · intro T creds key transport rand res htr hres hcode
    cases creds with
    | none =>
      rw [show signedApiCall none key transport rand =
          Except.ok ⟨-1, some (noCredMsg key), none⟩ from rfl] at hres
      injection hres with hv
      subst hv
      simp at hcode
    | some c =>
      rw [signedApiCall_some] at hres
      have h2 := withRetry_result_eq transport rand
      cases hr : (withRetry transport rand).result with
      | ok v =>
        rw [hr] at hres h2
        dsimp only at hres
        injection hres with hv
        subst hv
        exact ⟨(withRetry transport rand).attempts - 1, h2.symm⟩
      | error e =>
        rw [hr] at hres h2
        dsimp only at hres
        injection hres with hv
        have he : errStatusNonzero e :=
          htr ((withRetry transport rand).attempts - 1) e h2.symm
        rw [← hv] at hcode
        exact absurd hcode (handleError_nonzero_aux e he)

/-- C10 witness: a transport that immediately returns a code-0 body is the
origin of the code-0 result. -/
theorem handleError_code_zero_witness :
    ∃ n, (fun _ : Nat => (Except.ok ({ code := 0, message := none, data := none } :
        ApiResponse Nat) : Except JsError (ApiResponse Nat))) n =
      Except.ok ({ code := 0, message := none, data := none } : ApiResponse Nat) :=
  handleError_code_zero.2 Nat (some ⟨"c", "s", "u", none, 0⟩) "k"
    (fun _ => Except.ok ⟨0, none, none⟩) (fun _ => 0) ⟨0, none, none⟩
    (fun _ _ he => Except.noConfusion he) rfl rfl
